import Mathlib

/-!
Shallow embedding of `src/folium/plugins/timestamped_wmstilelayer.py`
(class `TimestampedWmsTileLayers`) and the parts of its environment the
claims need.

The class stores constructor parameters (with Python's `int`/`bool`
coercions), holds a Jinja2 script template that interpolates the parent
map's generated name, the playback options and one adapter declaration
per stored tile layer, and on `render()` asserts that the root element is
a `Figure` and registers six external resource links on the figure's
header, each under a fixed logical name.

Python values and errors are modelled explicitly; machine-level details
(object identity, float decimal printing) are outside every claim and are
noted where a modelling choice is made.
-/

/-- Kinds of Python exceptions this module can raise. -/
inductive PyErr where
  | typeError (msg : String)
  | valueError (msg : String)
  | attributeError (msg : String)
  | assertionError (msg : String)
deriving DecidableEq, Repr

/-- A Python scalar value, the universe from which the constructor's
`transition_time`, `loop`, `auto_play` and `time_interval` arguments are
drawn. Floats are represented exactly as rationals. -/
inductive PyVal where
  | none
  | bool (b : Bool)
  | int (n : Int)
  | float (q : Rat)
  | str (s : String)
deriving DecidableEq, Repr

/-- Python truthiness, as used by `bool(...)` in `__init__` and by the
Jinja2 test in the template. Total: coercion to bool never fails. -/
def pyTruthy : PyVal → Bool
  | PyVal.none => false
  | PyVal.bool b => b
  | PyVal.int n => n != 0
  | PyVal.float q => q != 0
  | PyVal.str s => s != ""

/-- Python `int(float)` truncates toward zero: T-division of the
numerator by the denominator. -/
def pyTrunc (q : Rat) : Int :=
  q.num.tdiv q.den

/-- Decimal digits of a string, as accepted by Python `int(str)`.
Returns `Option.none` on an empty digit list or any non-digit character.
(Python also strips surrounding whitespace and allows `_` separators;
those extensions are not modelled and no claim depends on them.) -/
def digitsToNat : List Char → Option Nat
  | [] => Option.none
  | cs =>
    cs.foldl
      (fun acc c =>
        acc.bind (fun n => if c.isDigit then some (10 * n + (c.toNat - 48)) else Option.none))
      (some 0)

/-- Python `int(str)`: an optional sign followed by decimal digits. -/
def parseIntStr (s : String) : Option Int :=
  match s.toList with
  | '-' :: rest => (digitsToNat rest).map (fun n => -(n : Int))
  | '+' :: rest => (digitsToNat rest).map (fun n => (n : Int))
  | cs => (digitsToNat cs).map (fun n => (n : Int))

/-- Python `int(...)` on a scalar value, as called by
`self.transition_time = int(transition_time)`: succeeds on bools, ints
and floats (truncating toward zero), parses integer-literal strings, and
raises on everything else. -/
def pyInt : PyVal → Except PyErr Int
  | PyVal.bool b => Except.ok (if b then 1 else 0)
  | PyVal.int n => Except.ok n
  | PyVal.float q => Except.ok (pyTrunc q)
  | PyVal.str s =>
    match parseIntStr s with
    | some n => Except.ok n
    | Option.none => Except.error (PyErr.valueError "invalid literal for int() with base 10")
  | PyVal.none => Except.error (PyErr.typeError "int() argument must not be None")

/-- Python `str(...)`, as used by Jinja2 when interpolating
`{{ this.time_interval }}`. (Python prints floats in decimal notation;
the rational rendering here is a placeholder, and no claim interpolates a
float value.) -/
def pyStr : PyVal → String
  | PyVal.none => "None"
  | PyVal.bool b => if b then "True" else "False"
  | PyVal.int n => toString n
  | PyVal.float q => toString q
  | PyVal.str s => s

/-- A Python object as seen by this module: whether it is an instance of
`WmsTileLayer` (the `isinstance` test in `__init__`), and its
`get_name()` / `version` attributes when it has them. Objects in this
universe are not themselves iterable. -/
structure PyObj where
  isWms : Bool
  getName : Option String
  version : Option String
deriving DecidableEq, Repr

/-- Attribute access `layer.get_name()`.
Modelled from the spec: a missing identifier attribute on a supplied
layer surfaces as an attribute-access error at render time (the actual
lookup failure is raised by the external Jinja2 engine, whose code is not
in `src/`). -/
def PyObj.nameAttr (o : PyObj) : Except PyErr String :=
  match o.getName with
  | some s => Except.ok s
  | Option.none => Except.error (PyErr.attributeError "get_name")

/-- Attribute access `layer.version`.
Modelled from the spec: a missing `version` attribute on a supplied layer
surfaces as an attribute-access error at render time (the lookup is
performed by the external Jinja2 engine, whose code is not in `src/`). -/
def PyObj.versionAttr (o : PyObj) : Except PyErr String :=
  match o.version with
  | some s => Except.ok s
  | Option.none => Except.error (PyErr.attributeError "version")

/-- The `data` constructor argument: either a single object (which may or
may not be a `WmsTileLayer` instance) or an iterable of objects. -/
inductive PyData where
  | obj (o : PyObj)
  | list (ls : List PyObj)
deriving DecidableEq, Repr

/-- What `self.layers` holds after `__init__`: a proper list (either the
one-element wrapping of a `WmsTileLayer`, or the iterable stored as-is),
or a single non-`WmsTileLayer` object stored raw with no type check. -/
inductive StoredLayers where
  | list (ls : List PyObj)
  | raw (o : PyObj)
deriving DecidableEq, Repr

/-- The state of a `TimestampedWmsTileLayers` instance after a successful
`__init__`. -/
structure TimestampedWmsTileLayers where
  transition_time : Int
  loop : Bool
  auto_play : Bool
  period : String
  time_interval : PyVal
  layers : StoredLayers
deriving DecidableEq, Repr

namespace TimestampedWmsTileLayers

/-- `TimestampedWmsTileLayers.__init__`: coerce `transition_time` with
`int(...)` (the only step that can raise), coerce `loop` and `auto_play`
with `bool(...)`, store `period` and `time_interval` verbatim, and wrap
`data` in a one-element list exactly when `isinstance(data, WmsTileLayer)`
holds, otherwise store it as-is. -/
def init (data : PyData) (transition_time loop auto_play : PyVal)
    (period : String) (time_interval : PyVal) :
    Except PyErr TimestampedWmsTileLayers :=
  match pyInt transition_time with
  | Except.error e => Except.error e
  | Except.ok tt =>
    Except.ok
      { transition_time := tt
        loop := pyTruthy loop
        auto_play := pyTruthy auto_play
        period := period
        time_interval := time_interval
        layers :=
          match data with
          | PyData.obj o => if o.isWms then StoredLayers.list [o] else StoredLayers.raw o
          | PyData.list ls => StoredLayers.list ls }

/-- `__init__` with every keyword argument left at its default
(`transition_time=200, loop=False, auto_play=False, period='P1D',
time_interval=False`). -/
def initDefault (data : PyData) : Except PyErr TimestampedWmsTileLayers :=
  init data (PyVal.int 200) (PyVal.bool false) (PyVal.bool false) "P1D" (PyVal.bool false)

end TimestampedWmsTileLayers

/-- The template's `{  }`-free rendering of a Python bool as a JavaScript
literal: `{ 'true' if this.auto_play else 'false' }`. -/
def boolJs (b : Bool) : String :=
  if b then "true" else "false"

/-- The `{  }` for-loop body of the template: one time-dimension layer
adapter declaration per stored layer, interpolating `layer.get_name()`
twice, `layer.version`, and the parent's name; attribute lookups may
fail. -/
def renderLayerLoop (p : String) : List PyObj → Except PyErr String
  | [] => Except.ok ""
  | l :: rest =>
    match l.nameAttr with
    | Except.error e => Except.error e
    | Except.ok n =>
      match l.versionAttr with
      | Except.error e => Except.error e
      | Except.ok v =>
        match renderLayerLoop p rest with
        | Except.error e => Except.error e
        | Except.ok tail =>
          Except.ok
            ("var " ++ n ++ " = L.timeDimension.layer.wms(" ++ n ++ "," ++
              "\n    \x7b" ++ "updateTimeDimension: false" ++ ",\n     " ++
              "wmsVersion: \x27" ++ v ++ "\x27" ++ ",\n    \x7d\n    " ++
              ").addTo(" ++ p ++ ")" ++ ";\n" ++ tail)

/-- Iterating `this.layers` in the template's for loop. A raw stored
object (a single non-`WmsTileLayer` argument) is not iterable in this
object universe, so iteration over it raises. -/
def iterLayers : StoredLayers → Except PyErr (List PyObj)
  | StoredLayers.list ls => Except.ok ls
  | StoredLayers.raw _ => Except.error (PyErr.typeError "object is not iterable")

/-- The script macro of `self._template`, rendered against parent name
`p`: the time-dimension object (with `period` always and `timeInterval`
only when truthy), the control widget with its player options, the
`addControl` call, then one adapter declaration per layer. -/
def scriptOf (t : TimestampedWmsTileLayers) (p : String) : Except PyErr String :=
  match iterLayers t.layers with
  | Except.error e => Except.error e
  | Except.ok ls =>
    match renderLayerLoop p ls with
    | Except.error e => Except.error e
    | Except.ok loopOut =>
      Except.ok
        (p ++ ".timeDimension = L.timeDimension(\x7b\n    period:\"" ++ t.period ++ "\"," ++
          (if pyTruthy t.time_interval then
            "\n    " ++ "timeInterval: \"" ++ pyStr t.time_interval ++ "\"" ++ ","
          else "") ++
          "\n    \x7d);\n" ++
          p ++ ".timeDimensionControl = L.control.timeDimension(\x7b\n    position: \x27bottomleft\x27,\n    " ++
          "autoPlay: " ++ boolJs t.auto_play ++
          ",\n    playerOptions: \x7b\n        " ++
          "transitionTime: " ++ toString t.transition_time ++
          ",\n        " ++ "loop: " ++ boolJs t.loop ++ "\x7d\n        \x7d);\n" ++
          p ++ ".addControl(" ++ p ++ ".timeDimensionControl);\n" ++ loopOut)

/-- A resource link registered on the page header: a script or a
stylesheet include, each carrying a URL. -/
inductive HeaderRes where
  | js (url : String)
  | css (url : String)
deriving DecidableEq, Repr

/-- Modelled from the spec: the page header's `add_child(child, name=key)`
is an append-with-dedup-by-key registry (an ordered dict supplied by the
external page-composition framework, not in `src/`): a fresh key is
appended, an existing key keeps its position and takes the new value. -/
def addChildNamed {α : Type} (entries : List (String × α)) (k : String) (v : α) :
    List (String × α) :=
  if entries.any (fun e => e.1 = k) then
    entries.map (fun e => if e.1 = k then (k, v) else e)
  else
    entries ++ [(k, v)]

/-- Modelled from the spec: the root page element of kind `Figure`, owning
the shared header resource registry and the registry of rendered script
blocks (both keyed by logical name; supplied by the external
page-composition framework, not in `src/`). -/
structure Figure where
  header : List (String × HeaderRes)
  scriptRegistry : List (String × String)
deriving DecidableEq, Repr

/-- The root element `self.get_root()` resolves to: a `Figure`, or some
other element when the node is not attached under a figure. -/
inductive Root where
  | fig (f : Figure)
  | notFig
deriving DecidableEq, Repr

namespace TimestampedWmsTileLayers

/-- `TimestampedWmsTileLayers.render`: the superclass render step renders
the script macro into the figure's script registry under the instance's
generated name `instName` — asserting first that the root is a `Figure` —
then the class's own assertion repeats that check, and finally six
resource links are registered on the figure header under fixed logical
names: four scripts, then two stylesheets. On any failure nothing is
produced and the figure is left untouched. -/
def render (t : TimestampedWmsTileLayers) (instName p : String) :
    Root → Except PyErr Figure
  | Root.notFig =>
    Except.error (PyErr.assertionError "You cannot render this Element if it is not in a Figure.")
  | Root.fig f =>
    match scriptOf t p with
    | Except.error e => Except.error e
    | Except.ok s =>
    let f1 : Figure := { f with scriptRegistry := addChildNamed f.scriptRegistry instName s }
    let hdr := addChildNamed f1.header "jquery2.0.0"
      (HeaderRes.js "https://cdnjs.cloudflare.com/ajax/libs/jquery/2.0.0/jquery.min.js")
    let hdr := addChildNamed hdr "jqueryui1.10.2"
      (HeaderRes.js "https://cdnjs.cloudflare.com/ajax/libs/jqueryui/1.10.2/jquery-ui.min.js")
    let hdr := addChildNamed hdr "iso8601"
      (HeaderRes.js "https://rawgit.com/nezasa/iso8601-js-period/master/iso8601.min.js")
    let hdr := addChildNamed hdr "leaflet.timedimension"
      (HeaderRes.js "https://rawgit.com/socib/Leaflet.TimeDimension/master/dist/leaflet.timedimension.min.js")
    let hdr := addChildNamed hdr "highlight.js_css"
      (HeaderRes.css "https://cdnjs.cloudflare.com/ajax/libs/highlight.js/8.4/styles/default.min.css")
    let hdr := addChildNamed hdr "leaflet.timedimension_css"
      (HeaderRes.css "http://apps.socib.es/Leaflet.TimeDimension/dist/leaflet.timedimension.control.min.css")
    Except.ok { f1 with header := hdr }

end TimestampedWmsTileLayers

/-! ### Substring search over character lists -/

/-- Whether `pat` occurs as a contiguous substring of `l`. -/
def hasSub (pat : List Char) : List Char → Bool
  | [] => pat.isEmpty
  | c :: l => pat.isPrefixOf (c :: l) || hasSub pat l

/-- Whether the string `s` contains `pat` as a contiguous substring. -/
def strHas (s pat : String) : Bool :=
  hasSub pat.toList s.toList

/-- Containment in the payload of a successful render result; an error
result contains nothing. -/
def okHas (r : Except PyErr String) (pat : String) : Bool :=
  match r with
  | Except.ok s => strHas s pat
  | Except.error _ => false

theorem strToList_append (a b : String) : (a ++ b).toList = a.toList ++ b.toList := by
  cases a with
  | mk da => cases b with
    | mk db => rfl

theorem isPrefixOf_append_self (pat b : List Char) : pat.isPrefixOf (pat ++ b) = true := by
  induction pat with
  | nil => simp
  | cons c cs ih => simp [List.isPrefixOf, ih]

theorem isPrefixOf_extend {pat l : List Char} (b : List Char) (h : pat.isPrefixOf l = true) :
    pat.isPrefixOf (l ++ b) = true := by
  induction pat generalizing l with
  | nil => simp [List.isPrefixOf]
  | cons c cs ih =>
    cases l with
    | nil => simp [List.isPrefixOf] at h
    | cons d ds =>
      simp only [List.isPrefixOf, List.cons_append, Bool.and_eq_true] at h ⊢
      exact ⟨h.1, ih h.2⟩

theorem mem_of_isPrefixOf {pat l : List Char} {c : Char} (h : pat.isPrefixOf l = true)
    (hc : c ∈ pat) : c ∈ l := by
  induction pat generalizing l with
  | nil => simp at hc
  | cons d ds ih =>
    cases l with
    | nil => simp [List.isPrefixOf] at h
    | cons e es =>
      simp only [List.isPrefixOf, Bool.and_eq_true, beq_iff_eq] at h
      rcases List.mem_cons.mp hc with h1 | h2
      · exact List.mem_cons.mpr (Or.inl (h1.trans h.1))
      · exact List.mem_cons.mpr (Or.inr (ih h.2 h2))

theorem hasSub_nil (l : List Char) : hasSub [] l = true := by
  induction l with
  | nil => rfl
  | cons c cs ih => simp [hasSub, ih]

theorem hasSub_of_isPrefixOf {pat l : List Char} (h : pat.isPrefixOf l = true) :
    hasSub pat l = true := by
  cases l with
  | nil =>
    cases pat with
    | nil => rfl
    | cons c cs => simp [List.isPrefixOf] at h
  | cons c cs => simp [hasSub, h]

theorem hasSub_append_right {pat l : List Char} (a : List Char) (h : hasSub pat l = true) :
    hasSub pat (a ++ l) = true := by
  induction a with
  | nil => simpa using h
  | cons c cs ih =>
    simp only [List.cons_append, hasSub, Bool.or_eq_true]
    exact Or.inr ih

theorem hasSub_append_left {pat l : List Char} (b : List Char) (h : hasSub pat l = true) :
    hasSub pat (l ++ b) = true := by
  induction l with
  | nil =>
    cases pat with
    | nil => exact hasSub_nil b
    | cons c cs => simp [hasSub, List.isEmpty] at h
  | cons c cs ih =>
    simp only [hasSub, Bool.or_eq_true] at h
    rcases h with h | h
    · simp only [List.cons_append, hasSub, Bool.or_eq_true]
      exact Or.inl (isPrefixOf_extend b h)
    · simp only [List.cons_append, hasSub, Bool.or_eq_true]
      exact Or.inr (ih h)

theorem hasSub_middle (a pat b : List Char) : hasSub pat (a ++ (pat ++ b)) = true :=
  hasSub_append_right a (hasSub_of_isPrefixOf (isPrefixOf_append_self pat b))

theorem mem_of_hasSub {pat l : List Char} {c : Char} (h : hasSub pat l = true)
    (hc : c ∈ pat) : c ∈ l := by
  induction l with
  | nil =>
    cases pat with
    | nil => simp at hc
    | cons d ds => simp [hasSub, List.isEmpty] at h
  | cons d ds ih =>
    simp only [hasSub, Bool.or_eq_true] at h
    rcases h with h | h
    · exact mem_of_isPrefixOf h hc
    · exact List.mem_cons.mpr (Or.inr (ih h))

/-! ### Spec-side decompositions of the rendered script -/

/-- Follows the spec's words: the "time-dimension-wrapped adapter"
declaration emitted for one layer — referencing the layer's generated
identifier `n` twice, carrying `updateTimeDimension: false` and the
layer's WMS version `v`, and added to the parent container `p`. -/
def specLayerAdapter (p n v : String) : String :=
  "var " ++ n ++ " = L.timeDimension.layer.wms(" ++ n ++ "," ++
    "\n    \x7b" ++ "updateTimeDimension: false" ++ ",\n     " ++
    "wmsVersion: \x27" ++ v ++ "\x27" ++ ",\n    \x7d\n    " ++
    ").addTo(" ++ p ++ ")" ++ ";\n"

/-- Concatenation of a list of fragments, in order. -/
def joinStr : List String → String
  | [] => ""
  | s :: rest => s ++ joinStr rest

/-- A well-formed tile layer (a `WmsTileLayer` instance) whose generated
identifier is `nv.1` and whose `version` attribute is `nv.2`. -/
def mkWms (nv : String × String) : PyObj :=
  { isWms := true, getName := some nv.1, version := some nv.2 }

/-- Follows the spec's words: the fixed head of the script — the
time-dimension object (with `period` always and `timeInterval` only when
truthy), the control widget carrying `autoPlay`, `transitionTime` and
`loop`, and the `addControl` call — before any per-layer declaration. -/
def specScriptHead (t : TimestampedWmsTileLayers) (p : String) : String :=
  p ++ ".timeDimension = L.timeDimension(\x7b\n    period:\"" ++ t.period ++ "\"," ++
    (if pyTruthy t.time_interval then
      "\n    " ++ "timeInterval: \"" ++ pyStr t.time_interval ++ "\"" ++ ","
    else "") ++
    "\n    \x7d);\n" ++
    p ++ ".timeDimensionControl = L.control.timeDimension(\x7b\n    position: \x27bottomleft\x27,\n    " ++
    "autoPlay: " ++ boolJs t.auto_play ++
    ",\n    playerOptions: \x7b\n        " ++
    "transitionTime: " ++ toString t.transition_time ++
    ",\n        " ++ "loop: " ++ boolJs t.loop ++ "\x7d\n        \x7d);\n" ++
    p ++ ".addControl(" ++ p ++ ".timeDimensionControl);\n"

theorem renderLayerLoop_eq_join (p : String) (pairs : List (String × String)) :
    renderLayerLoop p (pairs.map mkWms) =
      Except.ok (joinStr (pairs.map (fun nv => specLayerAdapter p nv.1 nv.2))) := by
  induction pairs with
  | nil => rfl
  | cons nv rest ih =>
    simp [renderLayerLoop, mkWms, PyObj.nameAttr, PyObj.versionAttr, ih, joinStr,
      specLayerAdapter]

theorem scriptOf_eq_join (t : TimestampedWmsTileLayers) (p : String)
    (pairs : List (String × String)) (h : t.layers = StoredLayers.list (pairs.map mkWms)) :
    scriptOf t p =
      Except.ok (specScriptHead t p ++
        joinStr (pairs.map (fun nv => specLayerAdapter p nv.1 nv.2))) := by
  simp [scriptOf, h, iterLayers, renderLayerLoop_eq_join, specScriptHead]

/-! ### String-level containment helpers -/

theorem strHas_append_right (a s pat : String) (h : strHas s pat = true) :
    strHas (a ++ s) pat = true := by
  unfold strHas at h ⊢
  rw [strToList_append]
  exact hasSub_append_right _ h

theorem strHas_append_left (s b pat : String) (h : strHas s pat = true) :
    strHas (s ++ b) pat = true := by
  unfold strHas at h ⊢
  rw [strToList_append]
  exact hasSub_append_left _ h

theorem hasSub_of_decomp {pat l : List Char} (a b : List Char) (h : l = a ++ (pat ++ b)) :
    hasSub pat l = true := by
  subst h
  exact hasSub_middle a pat b

theorem strHas_joinStr {β : Type} (f : β → String) (pat : String) (xs : List β) (x : β)
    (hx : x ∈ xs) (h : strHas (f x) pat = true) :
    strHas (joinStr (xs.map f)) pat = true := by
  induction xs with
  | nil => simp at hx
  | cons y ys ih =>
    rcases List.mem_cons.mp hx with h1 | h2
    · subst h1
      exact strHas_append_left _ _ _ h
    · exact strHas_append_right _ _ _ (ih h2)

theorem mem_joinStr {β : Type} (f : β → String) (c : Char) (xs : List β)
    (h : c ∈ (joinStr (xs.map f)).toList) : ∃ x ∈ xs, c ∈ (f x).toList := by
  induction xs with
  | nil => simp [joinStr] at h
  | cons y ys ih =>
    simp only [List.map_cons, joinStr, strToList_append, List.mem_append] at h
    rcases h with h | h
    · exact ⟨y, List.mem_cons_self y ys, h⟩
    · obtain ⟨x, hx, hc⟩ := ih h
      exact ⟨x, List.mem_cons.mpr (Or.inr hx), hc⟩

/-! ### Counting adapter declarations through the capital letter V -/

/-- The number of occurrences of the character `V` in a string. In the
rendered script, `V` occurs in the fixed template text only inside
`wmsVersion`, once per layer-adapter declaration. -/
def countV (s : String) : Nat :=
  s.toList.count 'V'

theorem countV_append (a b : String) : countV (a ++ b) = countV a + countV b := by
  unfold countV
  rw [strToList_append, List.count_append]

theorem countV_eq_zero {s : String} (h : 'V' ∉ s.toList) : countV s = 0 :=
  List.count_eq_zero.mpr h

theorem countV_boolJs (b : Bool) : countV (boolJs b) = 0 := by
  cases b <;> decide

theorem countV_adapter (p n v : String) (hp : 'V' ∉ p.toList) (hn : 'V' ∉ n.toList)
    (hv : 'V' ∉ v.toList) : countV (specLayerAdapter p n v) = 1 := by
  unfold specLayerAdapter
  simp [countV_append, countV_eq_zero hp, countV_eq_zero hn, countV_eq_zero hv]
  decide

theorem countV_head (t : TimestampedWmsTileLayers) (p : String)
    (hp : 'V' ∉ p.toList) (hper : 'V' ∉ t.period.toList)
    (hti : 'V' ∉ (pyStr t.time_interval).toList)
    (htt : 'V' ∉ (toString t.transition_time).toList) :
    countV (specScriptHead t p) = 0 := by
  unfold specScriptHead
  by_cases hb : pyTruthy t.time_interval = true
  · simp [hb, countV_append, countV_eq_zero hp, countV_eq_zero hper, countV_eq_zero hti,
      countV_eq_zero htt, countV_boolJs]
    decide
  · simp only [Bool.not_eq_true] at hb
    simp [hb, countV_append, countV_eq_zero hp, countV_eq_zero hper,
      countV_eq_zero htt, countV_boolJs]
    decide

theorem countV_join (p : String) (pairs : List (String × String)) (hp : 'V' ∉ p.toList)
    (hnv : ∀ nv ∈ pairs, 'V' ∉ (nv.1 : String).toList ∧ 'V' ∉ (nv.2 : String).toList) :
    countV (joinStr (pairs.map (fun nv => specLayerAdapter p nv.1 nv.2))) = pairs.length := by
  induction pairs with
  | nil => rfl
  | cons nv rest ih =>
    have h1 := hnv nv (List.mem_cons_self nv rest)
    simp only [List.map_cons, joinStr, countV_append, List.length_cons]
    rw [countV_adapter p nv.1 nv.2 hp h1.1 h1.2,
      ih (fun x hx => hnv x (List.mem_cons.mpr (Or.inr hx)))]
    omega

/-! ### Prefix-shaped containment at chunk boundaries -/

theorem hasSub_chunks1 {A rest : List Char} : hasSub A (A ++ rest) = true :=
  hasSub_of_isPrefixOf (isPrefixOf_append_self A rest)

theorem hasSub_chunks2 {A B rest : List Char} :
    hasSub (A ++ B) (A ++ (B ++ rest)) = true := by
  apply hasSub_of_isPrefixOf
  have h := isPrefixOf_append_self (A ++ B) rest
  simpa [List.append_assoc] using h

theorem hasSub_chunks3 {A B C rest : List Char} :
    hasSub (A ++ (B ++ C)) (A ++ (B ++ (C ++ rest))) = true := by
  apply hasSub_of_isPrefixOf
  have h := isPrefixOf_append_self (A ++ (B ++ C)) rest
  simpa [List.append_assoc] using h

theorem hasSub_chunks5 {A B C D E rest : List Char} :
    hasSub (A ++ (B ++ (C ++ (D ++ E)))) (A ++ (B ++ (C ++ (D ++ (E ++ rest))))) = true := by
  apply hasSub_of_isPrefixOf
  have h := isPrefixOf_append_self (A ++ (B ++ (C ++ (D ++ E)))) rest
  simpa [List.append_assoc] using h

/-! ### Containment facts about the rendered fragments -/

theorem adapter_has_decl (p n v : String) :
    strHas (specLayerAdapter p n v)
      ("var " ++ n ++ " = L.timeDimension.layer.wms(" ++ n ++ ",") = true := by
  unfold strHas specLayerAdapter
  simp only [strToList_append, List.append_assoc]
  exact hasSub_chunks5

theorem adapter_has_update (p n v : String) :
    strHas (specLayerAdapter p n v) "updateTimeDimension: false" = true := by
  unfold strHas specLayerAdapter
  simp only [strToList_append, List.append_assoc]
  apply hasSub_append_right
  apply hasSub_append_right
  apply hasSub_append_right
  apply hasSub_append_right
  apply hasSub_append_right
  apply hasSub_append_right
  exact hasSub_chunks1

theorem adapter_has_version (p n v : String) :
    strHas (specLayerAdapter p n v) ("wmsVersion: \x27" ++ v ++ "\x27") = true := by
  unfold strHas specLayerAdapter
  simp only [strToList_append, List.append_assoc]
  apply hasSub_append_right
  apply hasSub_append_right
  apply hasSub_append_right
  apply hasSub_append_right
  apply hasSub_append_right
  apply hasSub_append_right
  apply hasSub_append_right
  apply hasSub_append_right
  exact hasSub_chunks3

theorem adapter_has_addTo (p n v : String) :
    strHas (specLayerAdapter p n v) (").addTo(" ++ p ++ ")") = true := by
  unfold strHas specLayerAdapter
  simp only [strToList_append, List.append_assoc]
  apply hasSub_append_right
  apply hasSub_append_right
  apply hasSub_append_right
  apply hasSub_append_right
  apply hasSub_append_right
  apply hasSub_append_right
  apply hasSub_append_right
  apply hasSub_append_right
  apply hasSub_append_right
  apply hasSub_append_right
  apply hasSub_append_right
  apply hasSub_append_right
  exact hasSub_chunks3

theorem head_has_autoPlay (t : TimestampedWmsTileLayers) (p tail : String) :
    strHas (specScriptHead t p ++ tail) ("autoPlay: " ++ boolJs t.auto_play) = true := by
  unfold strHas specScriptHead
  simp only [strToList_append, List.append_assoc]
  apply hasSub_append_right
  apply hasSub_append_right
  apply hasSub_append_right
  apply hasSub_append_right
  apply hasSub_append_right
  apply hasSub_append_right
  apply hasSub_append_right
  apply hasSub_append_right
  exact hasSub_chunks2

theorem head_has_transition (t : TimestampedWmsTileLayers) (p tail : String) :
    strHas (specScriptHead t p ++ tail)
      ("transitionTime: " ++ toString t.transition_time) = true := by
  unfold strHas specScriptHead
  simp only [strToList_append, List.append_assoc]
  apply hasSub_append_right
  apply hasSub_append_right
  apply hasSub_append_right
  apply hasSub_append_right
  apply hasSub_append_right
  apply hasSub_append_right
  apply hasSub_append_right
  apply hasSub_append_right
  apply hasSub_append_right
  apply hasSub_append_right
  apply hasSub_append_right
  exact hasSub_chunks2

theorem head_has_loop (t : TimestampedWmsTileLayers) (p tail : String) :
    strHas (specScriptHead t p ++ tail) ("loop: " ++ boolJs t.loop) = true := by
  unfold strHas specScriptHead
  simp only [strToList_append, List.append_assoc]
  apply hasSub_append_right
  apply hasSub_append_right
  apply hasSub_append_right
  apply hasSub_append_right
  apply hasSub_append_right
  apply hasSub_append_right
  apply hasSub_append_right
  apply hasSub_append_right
  apply hasSub_append_right
  apply hasSub_append_right
  apply hasSub_append_right
  apply hasSub_append_right
  apply hasSub_append_right
  apply hasSub_append_right
  exact hasSub_chunks2

theorem head_has_timeInterval (t : TimestampedWmsTileLayers) (p tail : String)
    (hb : pyTruthy t.time_interval = true) :
    strHas (specScriptHead t p ++ tail)
      ("timeInterval: \"" ++ pyStr t.time_interval ++ "\"") = true := by
  unfold strHas specScriptHead
  rw [hb]
  simp only [if_true, strToList_append, List.append_assoc]
  apply hasSub_append_right
  apply hasSub_append_right
  apply hasSub_append_right
  apply hasSub_append_right
  apply hasSub_append_right
  exact hasSub_chunks3

/-! ### Further helper lemmas -/

theorem renderLayerLoop_congr (p : String) {ls1 ls2 : List PyObj}
    (h : List.Forall₂ (fun a b => a.getName = b.getName ∧ a.version = b.version) ls1 ls2) :
    renderLayerLoop p ls1 = renderLayerLoop p ls2 := by
  induction h with
  | nil => rfl
  | cons hab htl ih =>
    simp only [renderLayerLoop, PyObj.nameAttr, PyObj.versionAttr, hab.1, hab.2, ih]

theorem pyTrunc_eq_floor_ceil (q : Rat) : pyTrunc q = (if q < 0 then ⌈q⌉ else ⌊q⌋) := by
  unfold pyTrunc
  by_cases h : q < 0
  · rw [if_pos h]
    have hn : q.num < 0 := by
      by_contra hc
      push_neg at hc
      exact absurd (Rat.num_nonneg.mp hc) (not_le.mpr h)
    have h1 : q.num = -(-q.num) := by ring
    rw [h1, Int.neg_tdiv]
    have h2 : (0 : Int) ≤ -q.num := by omega
    rw [Int.tdiv_eq_ediv h2 (Int.natCast_nonneg q.den)]
    rw [show ⌈q⌉ = -⌊-q⌋ by rw [Int.floor_neg, neg_neg]]
    rw [Rat.floor_def, Rat.num_neg_eq_neg_num, Rat.den_neg_eq_den]
  · rw [if_neg h]
    push_neg at h
    rw [Int.tdiv_eq_ediv (Rat.num_nonneg.mpr h) (Int.natCast_nonneg q.den), Rat.floor_def]

/-! ### The claims -/

/-- C1: rendering a node whose root element is not a `Figure` fails with
the assertion error stating the element cannot be rendered outside a
`Figure`; the error result carries no rendered output and no page state,
so the header registry and markup of any page are untouched. -/
theorem claim1_detached_render_fails (t : TimestampedWmsTileLayers) (instName p : String) :
    t.render instName p Root.notFig =
      Except.error (PyErr.assertionError
        "You cannot render this Element if it is not in a Figure.") :=
  rfl

/-- C6: the constructor normalizes `data` into an ordered sequence: a
single `WmsTileLayer` instance is wrapped into a one-element list, any
other value is stored as-is with no type check and no exception at
construction (given a convertible `transition_time`), even when the
iterable's elements are malformed; a bad element fails only at render
time, through the attribute access on its identifier. -/
theorem claim6_data_normalized (o : PyObj) (ls : List PyObj) (tt lp ap ti : PyVal)
    (per : String) (n : Int) (htt : pyInt tt = Except.ok n) :
    TimestampedWmsTileLayers.init (PyData.obj o) tt lp ap per ti =
      Except.ok
        { transition_time := n, loop := pyTruthy lp, auto_play := pyTruthy ap,
          period := per, time_interval := ti,
          layers := if o.isWms then StoredLayers.list [o] else StoredLayers.raw o } ∧
    TimestampedWmsTileLayers.init (PyData.list ls) tt lp ap per ti =
      Except.ok
        { transition_time := n, loop := pyTruthy lp, auto_play := pyTruthy ap,
          period := per, time_interval := ti, layers := StoredLayers.list ls } ∧
    (∀ t p rest, t.layers = StoredLayers.list
        ({ isWms := false, getName := Option.none, version := Option.none } :: rest) →
      scriptOf t p = Except.error (PyErr.attributeError "get_name")) := by
  refine ⟨?_, ?_, ?_⟩
  · simp [TimestampedWmsTileLayers.init, htt]
  · simp [TimestampedWmsTileLayers.init, htt]
  · intro t p rest h
    simp [scriptOf, h, iterLayers, renderLayerLoop, PyObj.nameAttr]

theorem claim6_witness :
    pyInt (PyVal.int 200) = Except.ok 200 ∧
    TimestampedWmsTileLayers.init
        (PyData.obj { isWms := true, getName := some "w0", version := some "130" })
        (PyVal.int 200) (PyVal.bool false) (PyVal.bool true) "P1D" (PyVal.str "iv") =
      Except.ok
        { transition_time := 200, loop := false, auto_play := true, period := "P1D",
          time_interval := PyVal.str "iv",
          layers := StoredLayers.list
            [{ isWms := true, getName := some "w0", version := some "130" }] } ∧
    scriptOf
        { transition_time := 200, loop := false, auto_play := true, period := "P1D",
          time_interval := PyVal.str "iv",
          layers := StoredLayers.list
            [{ isWms := false, getName := Option.none, version := Option.none }] } "m" =
      Except.error (PyErr.attributeError "get_name") := by
  refine ⟨rfl, ?_, ?_⟩
  · exact (claim6_data_normalized
      { isWms := true, getName := some "w0", version := some "130" } []
      (PyVal.int 200) (PyVal.bool false) (PyVal.bool true) (PyVal.str "iv") "P1D" 200 rfl).1
  · exact (claim6_data_normalized
      { isWms := true, getName := some "w0", version := some "130" } []
      (PyVal.int 200) (PyVal.bool false) (PyVal.bool true) (PyVal.str "iv") "P1D" 200 rfl).2.2
      _ "m" [] rfl

/-- C7: construction fails exactly when `transition_time` is not
convertible to an integer, and the failure is the conversion's own error;
the truthiness coercions of `loop` and `auto_play` always succeed and are
stored as booleans, and `period` and `time_interval` are stored verbatim
without validation. -/
theorem claim7_coercions (data : PyData) (tt lp ap ti : PyVal) (per : String) :
    ((∃ t, TimestampedWmsTileLayers.init data tt lp ap per ti = Except.ok t) ↔
      (∃ n, pyInt tt = Except.ok n)) ∧
    (∀ e, pyInt tt = Except.error e →
      TimestampedWmsTileLayers.init data tt lp ap per ti = Except.error e) ∧
    (∀ t, TimestampedWmsTileLayers.init data tt lp ap per ti = Except.ok t →
      t.loop = pyTruthy lp ∧ t.auto_play = pyTruthy ap ∧ t.period = per ∧
        t.time_interval = ti) := by
  refine ⟨?_, ?_, ?_⟩
  · cases h : pyInt tt with
    | ok n => simp [TimestampedWmsTileLayers.init, h]
    | error e => simp [TimestampedWmsTileLayers.init, h]
  · intro e he
    simp [TimestampedWmsTileLayers.init, he]
  · intro t ht
    cases h : pyInt tt with
    | ok n =>
      simp only [TimestampedWmsTileLayers.init, h] at ht
      cases ht
      simp
    | error e => simp [TimestampedWmsTileLayers.init, h] at ht

theorem claim7_witness :
    TimestampedWmsTileLayers.init (PyData.list []) (PyVal.str "2x") (PyVal.int 3)
        PyVal.none "P1D" (PyVal.str "iv") =
      Except.error (PyErr.valueError "invalid literal for int() with base 10") ∧
    ({ transition_time := 200, loop := true, auto_play := false, period := "P1D",
        time_interval := PyVal.str "iv",
        layers := StoredLayers.list [] } : TimestampedWmsTileLayers).loop =
      pyTruthy (PyVal.int 3) := by
  constructor
  · exact (claim7_coercions (PyData.list []) (PyVal.str "2x") (PyVal.int 3)
      PyVal.none (PyVal.str "iv") "P1D").2.1
      (PyErr.valueError "invalid literal for int() with base 10") rfl
  · exact ((claim7_coercions (PyData.list []) (PyVal.int 200) (PyVal.int 3)
      PyVal.none (PyVal.str "iv") "P1D").2.2 _ rfl).1

/-- C8: script generation is deterministic: two instances with equal
stored configuration, the same parent name, and layer sequences whose
elements have pairwise equal generated names and version attributes
render identical script fragments, regardless of any other difference
between the layer objects. -/
theorem claim8_deterministic (t1 t2 : TimestampedWmsTileLayers) (p : String)
    (ls1 ls2 : List PyObj)
    (hl1 : t1.layers = StoredLayers.list ls1) (hl2 : t2.layers = StoredLayers.list ls2)
    (htt : t1.transition_time = t2.transition_time) (hlp : t1.loop = t2.loop)
    (hap : t1.auto_play = t2.auto_play) (hper : t1.period = t2.period)
    (hti : t1.time_interval = t2.time_interval)
    (hlay : List.Forall₂ (fun a b => a.getName = b.getName ∧ a.version = b.version) ls1 ls2) :
    scriptOf t1 p = scriptOf t2 p := by
  unfold scriptOf
  rw [hl1, hl2]
  simp only [iterLayers]
  rw [renderLayerLoop_congr p hlay, htt, hlp, hap, hper, hti]

theorem claim8_witness :
    ({ transition_time := 200, loop := false, auto_play := false, period := "P1D",
        time_interval := PyVal.bool false,
        layers := StoredLayers.list
                    [{ isWms := true, getName := some "L1", version := some "130" }] } :
        TimestampedWmsTileLayers).layers =
      StoredLayers.list [{ isWms := true, getName := some "L1", version := some "130" }] ∧
    scriptOf
        { transition_time := 200, loop := false, auto_play := false, period := "P1D",
          time_interval := PyVal.bool false,
          layers := StoredLayers.list
                      [{ isWms := true, getName := some "L1", version := some "130" }] } "m" =
      scriptOf
        { transition_time := 200, loop := false, auto_play := false, period := "P1D",
          time_interval := PyVal.bool false,
          layers := StoredLayers.list
                      [{ isWms := false, getName := some "L1", version := some "130" }] } "m" := by
  constructor
  · rfl
  · exact claim8_deterministic _ _ "m" _ _ rfl rfl rfl rfl rfl rfl rfl
      (List.Forall₂.cons ⟨rfl, rfl⟩ List.Forall₂.nil)

/-- C9: a non-integer numeric `transition_time` is accepted, not
rejected: construction from any float succeeds and stores the value
truncated toward zero (floor for nonnegative values, ceiling for
negative ones), and the rendered script carries `transitionTime:`
followed by that truncated integer. -/
theorem claim9_float_truncation (q : Rat) (data : PyData) (p : String) :
    (∃ t, TimestampedWmsTileLayers.init data (PyVal.float q) (PyVal.bool false)
        (PyVal.bool false) "P1D" (PyVal.bool false) = Except.ok t ∧
        t.transition_time = pyTrunc q) ∧
    pyTrunc q = (if q < 0 then ⌈q⌉ else ⌊q⌋) ∧
    okHas
      (scriptOf
        { transition_time := pyTrunc q, loop := false, auto_play := false,
          period := "P1D", time_interval := PyVal.bool false,
          layers := StoredLayers.list [] } p)
      ("transitionTime: " ++ toString (pyTrunc q)) = true := by
  refine ⟨?_, pyTrunc_eq_floor_ceil q, ?_⟩
  · cases data with
    | obj o =>
      cases ho : o.isWms with
      | true =>
        exact ⟨{ transition_time := pyTrunc q, loop := false, auto_play := false,
                 period := "P1D", time_interval := PyVal.bool false,
                 layers := StoredLayers.list [o] },
               by simp [TimestampedWmsTileLayers.init, pyInt, pyTruthy, ho], rfl⟩
      | false =>
        exact ⟨{ transition_time := pyTrunc q, loop := false, auto_play := false,
                 period := "P1D", time_interval := PyVal.bool false,
                 layers := StoredLayers.raw o },
               by simp [TimestampedWmsTileLayers.init, pyInt, pyTruthy, ho], rfl⟩
    | list ls =>
      exact ⟨{ transition_time := pyTrunc q, loop := false, auto_play := false,
               period := "P1D", time_interval := PyVal.bool false,
               layers := StoredLayers.list ls },
             by simp [TimestampedWmsTileLayers.init, pyInt, pyTruthy], rfl⟩
  · rw [scriptOf_eq_join _ p [] rfl]
    show strHas _ _ = true
    exact head_has_transition _ p _

/-- C10: only a `WmsTileLayer` instance is recognized as a single layer
and wrapped: a single object of any other type is stored raw, not as the
one-element list, and the render-time iteration over it is what fails;
a `WmsTileLayer` instance is wrapped into a one-element list. -/
theorem claim10_wms_only_wrapped (o w : PyObj) (tt lp ap ti : PyVal) (per : String)
    (ho : o.isWms = false) (hw : w.isWms = true) :
    (∀ t, TimestampedWmsTileLayers.init (PyData.obj o) tt lp ap per ti = Except.ok t →
      t.layers = StoredLayers.raw o ∧ t.layers ≠ StoredLayers.list [o]) ∧
    (∀ t p, t.layers = StoredLayers.raw o →
      scriptOf t p = Except.error (PyErr.typeError "object is not iterable")) ∧
    (∀ t, TimestampedWmsTileLayers.init (PyData.obj w) tt lp ap per ti = Except.ok t →
      t.layers = StoredLayers.list [w]) := by
  refine ⟨?_, ?_, ?_⟩
  · intro t ht
    cases h : pyInt tt with
    | ok n =>
      simp only [TimestampedWmsTileLayers.init, h, ho] at ht
      cases ht
      simp
    | error e => simp [TimestampedWmsTileLayers.init, h] at ht
  · intro t p h
    simp [scriptOf, h, iterLayers]
  · intro t ht
    cases h : pyInt tt with
    | ok n =>
      simp only [TimestampedWmsTileLayers.init, h, hw] at ht
      cases ht
      simp
    | error e => simp [TimestampedWmsTileLayers.init, h] at ht

theorem claim10_witness :
    ({ isWms := false, getName := some "L1", version := some "130" } : PyObj).isWms = false ∧
    ({ isWms := true, getName := some "L2", version := some "130" } : PyObj).isWms = true ∧
    ({ transition_time := 200, loop := false, auto_play := false, period := "P1D",
        time_interval := PyVal.bool false,
        layers := StoredLayers.raw
                    { isWms := false, getName := some "L1", version := some "130" } } :
        TimestampedWmsTileLayers).layers =
      StoredLayers.raw { isWms := false, getName := some "L1", version := some "130" } ∧
    scriptOf
        { transition_time := 200, loop := false, auto_play := false, period := "P1D",
          time_interval := PyVal.bool false,
          layers := StoredLayers.raw
                      { isWms := false, getName := some "L1", version := some "130" } } "m" =
      Except.error (PyErr.typeError "object is not iterable") := by
  refine ⟨rfl, rfl, rfl, ?_⟩
  exact (claim10_wms_only_wrapped
      { isWms := false, getName := some "L1", version := some "130" }
      { isWms := true, getName := some "L2", version := some "130" }
      (PyVal.int 200) (PyVal.bool false) (PyVal.bool false) (PyVal.bool false) "P1D"
      rfl rfl).2.1 _ "m" rfl

/-- C2: for a stored sequence of N tile layers (N = 0 and duplicates
included) the rendered script is the fixed head followed by exactly one
adapter declaration per layer, in input order — each declaring a variable
named by the layer's generated identifier and wrapping that same
identifier, carrying `updateTimeDimension: false` and `wmsVersion` set to
the layer's version, and added to the parent container — so the script
has exactly N occurrences of the character `V` (which the fixed text uses
only in `wmsVersion`); an empty sequence raises no error and contributes
no per-layer text. -/
theorem claim2_adapter_declarations (t : TimestampedWmsTileLayers) (p : String)
    (pairs : List (String × String))
    (h : t.layers = StoredLayers.list (pairs.map mkWms))
    (hp : 'V' ∉ p.toList) (hper : 'V' ∉ t.period.toList)
    (hti : 'V' ∉ (pyStr t.time_interval).toList)
    (htt : 'V' ∉ (toString t.transition_time).toList)
    (hnv : ∀ nv ∈ pairs, 'V' ∉ (nv.1 : String).toList ∧ 'V' ∉ (nv.2 : String).toList) :
    scriptOf t p =
      Except.ok (specScriptHead t p ++
        joinStr (pairs.map (fun nv => specLayerAdapter p nv.1 nv.2))) ∧
    (pairs.map (fun nv => specLayerAdapter p nv.1 nv.2)).length = pairs.length ∧
    (∀ s, scriptOf t p = Except.ok s → countV s = pairs.length) ∧
    (∀ nv ∈ pairs,
      okHas (scriptOf t p)
        ("var " ++ nv.1 ++ " = L.timeDimension.layer.wms(" ++ nv.1 ++ ",") = true ∧
      okHas (scriptOf t p) "updateTimeDimension: false" = true ∧
      okHas (scriptOf t p) ("wmsVersion: \x27" ++ nv.2 ++ "\x27") = true ∧
      okHas (scriptOf t p) (").addTo(" ++ p ++ ")") = true) ∧
    (pairs = [] → scriptOf t p = Except.ok (specScriptHead t p)) := by
  have hmain := scriptOf_eq_join t p pairs h
  refine ⟨hmain, by simp, ?_, ?_, ?_⟩
  · intro s hs
    rw [hmain] at hs
    injection hs with hs
    subst hs
    rw [countV_append, countV_head t p hp hper hti htt, countV_join p pairs hp hnv]
    omega
  · intro nv hnv2
    refine ⟨?_, ?_, ?_, ?_⟩
    · rw [hmain]
      show strHas _ _ = true
      exact strHas_append_right _ _ _
        (strHas_joinStr _ _ pairs nv hnv2 (adapter_has_decl p nv.1 nv.2))
    · rw [hmain]
      show strHas _ _ = true
      exact strHas_append_right _ _ _
        (strHas_joinStr _ _ pairs nv hnv2 (adapter_has_update p nv.1 nv.2))
    · rw [hmain]
      show strHas _ _ = true
      exact strHas_append_right _ _ _
        (strHas_joinStr _ _ pairs nv hnv2 (adapter_has_version p nv.1 nv.2))
    · rw [hmain]
      show strHas _ _ = true
      exact strHas_append_right _ _ _
        (strHas_joinStr _ _ pairs nv hnv2 (adapter_has_addTo p nv.1 nv.2))
  · intro hpairs
    subst hpairs
    simpa [joinStr, String.append_empty] using hmain

theorem claim2_witness :
    ({ transition_time := 200, loop := false, auto_play := false, period := "P1D",
        time_interval := PyVal.bool false,
        layers := StoredLayers.list
          ([("L1", "130"), ("L2", "111")].map mkWms) } :
        TimestampedWmsTileLayers).layers =
      StoredLayers.list ([("L1", "130"), ("L2", "111")].map mkWms) ∧
    'V' ∉ ("m" : String).toList ∧
    (∀ s, scriptOf
        { transition_time := 200, loop := false, auto_play := false, period := "P1D",
          time_interval := PyVal.bool false,
          layers := StoredLayers.list ([("L1", "130"), ("L2", "111")].map mkWms) } "m" =
        Except.ok s → countV s = 2) ∧
    okHas
      (scriptOf
        { transition_time := 200, loop := false, auto_play := false, period := "P1D",
          time_interval := PyVal.bool false,
          layers := StoredLayers.list ([("L1", "130"), ("L2", "111")].map mkWms) } "m")
      ("var " ++ "L2" ++ " = L.timeDimension.layer.wms(" ++ "L2" ++ ",") = true := by
  have hc := claim2_adapter_declarations
    { transition_time := 200, loop := false, auto_play := false, period := "P1D",
      time_interval := PyVal.bool false,
      layers := StoredLayers.list ([("L1", "130"), ("L2", "111")].map mkWms) } "m"
    [("L1", "130"), ("L2", "111")] rfl (by decide) (by decide) (by decide) (by decide)
    (by decide)
  refine ⟨rfl, by decide, ?_, ?_⟩
  · intro s hs
    exact hc.2.2.1 s hs
  · exact (hc.2.2.2.1 ("L2", "111") (by decide)).1

/-! ### Character absence in the rendered script -/

theorem notMem_append {c : Char} {a b : List Char} (ha : c ∉ a) (hb : c ∉ b) :
    c ∉ a ++ b := by
  intro hc
  rcases List.mem_append.mp hc with hc | hc
  · exact ha hc
  · exact hb hc

theorem notI_boolJs (b : Bool) : 'I' ∉ (boolJs b).toList := by
  cases b <;> decide

theorem notI_head (t : TimestampedWmsTileLayers) (p : String)
    (hb : pyTruthy t.time_interval = false)
    (hp : 'I' ∉ p.toList) (hper : 'I' ∉ t.period.toList)
    (htt : 'I' ∉ (toString t.transition_time).toList) :
    'I' ∉ (specScriptHead t p).toList := by
  unfold specScriptHead
  rw [hb]
  simp only [Bool.false_eq_true, if_false, strToList_append, List.mem_append, not_or]
  repeat' apply And.intro
  all_goals
    first
      | exact hp
      | exact hper
      | exact htt
      | exact notI_boolJs _
      | decide

theorem notI_adapter (p n v : String) (hp : 'I' ∉ p.toList) (hn : 'I' ∉ n.toList)
    (hv : 'I' ∉ v.toList) : 'I' ∉ (specLayerAdapter p n v).toList := by
  unfold specLayerAdapter
  simp only [strToList_append, List.mem_append, not_or]
  repeat' apply And.intro
  all_goals
    first
      | exact hp
      | exact hn
      | exact hv
      | decide

theorem notI_join (p : String) (pairs : List (String × String)) (hp : 'I' ∉ p.toList)
    (hnv : ∀ nv ∈ pairs, 'I' ∉ (nv.1 : String).toList ∧ 'I' ∉ (nv.2 : String).toList) :
    'I' ∉ (joinStr (pairs.map (fun nv => specLayerAdapter p nv.1 nv.2))).toList := by
  intro hI
  obtain ⟨nv, hmem, hc⟩ := mem_joinStr _ 'I' pairs hI
  exact notI_adapter p nv.1 nv.2 hp (hnv nv hmem).1 (hnv nv hmem).2 hc

theorem head_has_tI_token (t : TimestampedWmsTileLayers) (p tail : String)
    (hb : pyTruthy t.time_interval = true) :
    strHas (specScriptHead t p ++ tail) "timeInterval" = true := by
  unfold strHas specScriptHead
  rw [hb]
  simp only [if_true, strToList_append, List.append_assoc]
  apply hasSub_append_right
  apply hasSub_append_right
  apply hasSub_append_right
  apply hasSub_append_right
  apply hasSub_append_right
  rw [show ("timeInterval: \"".toList : List Char) =
    "timeInterval".toList ++ ": \"".toList from by decide]
  simp only [List.append_assoc]
  exact hasSub_chunks1

theorem head_has_period (t : TimestampedWmsTileLayers) (p tail : String) :
    strHas (specScriptHead t p ++ tail) ("period:\"" ++ t.period ++ "\"") = true := by
  unfold strHas specScriptHead
  simp only [strToList_append, List.append_assoc]
  rw [show (".timeDimension = L.timeDimension(\x7b\n    period:\"".toList : List Char) =
    ".timeDimension = L.timeDimension(\x7b\n    ".toList ++ "period:\"".toList from by decide]
  rw [show ("\",".toList : List Char) = "\"".toList ++ ",".toList from by decide]
  simp only [List.append_assoc]
  apply hasSub_append_right
  apply hasSub_append_right
  exact hasSub_chunks3

/-- C3: the rendered script always carries the stored period as the
`period` field of the time-dimension object, and mentions `timeInterval`
exactly when the stored `time_interval` value is truthy — in which case
the field holds the value as a quoted literal; when the value is falsy
(in particular for the default `time_interval=False`) the word
`timeInterval` does not occur anywhere in the script. -/
theorem claim3_time_interval_field (t : TimestampedWmsTileLayers) (p : String)
    (pairs : List (String × String))
    (h : t.layers = StoredLayers.list (pairs.map mkWms))
    (hp : 'I' ∉ p.toList) (hper : 'I' ∉ t.period.toList)
    (htt : 'I' ∉ (toString t.transition_time).toList)
    (hnv : ∀ nv ∈ pairs, 'I' ∉ (nv.1 : String).toList ∧ 'I' ∉ (nv.2 : String).toList) :
    okHas (scriptOf t p) ("period:\"" ++ t.period ++ "\"") = true ∧
    okHas (scriptOf t p) "timeInterval" = pyTruthy t.time_interval ∧
    (pyTruthy t.time_interval = true →
      okHas (scriptOf t p) ("timeInterval: \"" ++ pyStr t.time_interval ++ "\"") = true) := by
  have hmain := scriptOf_eq_join t p pairs h
  refine ⟨?_, ?_, ?_⟩
  · rw [hmain]
    show strHas _ _ = true
    exact head_has_period t p _
  · rw [hmain]
    show strHas _ _ = pyTruthy t.time_interval
    cases hb : pyTruthy t.time_interval with
    | true => exact head_has_tI_token t p _ hb
    | false =>
      rw [Bool.eq_false_iff]
      intro hcon
      unfold strHas at hcon
      have hI := mem_of_hasSub hcon (show 'I' ∈ "timeInterval".toList from by decide)
      rw [strToList_append] at hI
      rcases List.mem_append.mp hI with hI | hI
      · exact notI_head t p hb hp hper htt hI
      · exact notI_join p pairs hp hnv hI
  · intro hb
    rw [hmain]
    show strHas _ _ = true
    exact head_has_timeInterval t p _ hb

theorem claim3_witness :
    ({ transition_time := 200, loop := false, auto_play := false, period := "P1D",
        time_interval := PyVal.str "2016-01-01/2016-01-08",
        layers := StoredLayers.list ([("L1", "130")].map mkWms) } :
        TimestampedWmsTileLayers).layers =
      StoredLayers.list ([("L1", "130")].map mkWms) ∧
    okHas
      (scriptOf
        { transition_time := 200, loop := false, auto_play := false, period := "P1D",
          time_interval := PyVal.str "2016-01-01/2016-01-08",
          layers := StoredLayers.list ([("L1", "130")].map mkWms) } "m")
      "timeInterval" = pyTruthy (PyVal.str "2016-01-01/2016-01-08") ∧
    okHas
      (scriptOf
        { transition_time := 200, loop := false, auto_play := false, period := "P1D",
          time_interval := PyVal.str "2016-01-01/2016-01-08",
          layers := StoredLayers.list ([("L1", "130")].map mkWms) } "m")
      ("timeInterval: \"" ++ pyStr (PyVal.str "2016-01-01/2016-01-08") ++ "\"") = true ∧
    okHas
      (scriptOf
        { transition_time := 200, loop := false, auto_play := false, period := "P1D",
          time_interval := PyVal.bool false,
          layers := StoredLayers.list ([("L1", "130")].map mkWms) } "m")
      "timeInterval" = pyTruthy (PyVal.bool false) := by
  have hA := claim3_time_interval_field
    { transition_time := 200, loop := false, auto_play := false, period := "P1D",
      time_interval := PyVal.str "2016-01-01/2016-01-08",
      layers := StoredLayers.list ([("L1", "130")].map mkWms) } "m" [("L1", "130")]
    rfl (by decide) (by decide) (by decide) (by decide)
  have hB := claim3_time_interval_field
    { transition_time := 200, loop := false, auto_play := false, period := "P1D",
      time_interval := PyVal.bool false,
      layers := StoredLayers.list ([("L1", "130")].map mkWms) } "m" [("L1", "130")]
    rfl (by decide) (by decide) (by decide) (by decide)
  exact ⟨rfl, hA.2.1, hA.2.2 (by decide), hB.2.1⟩

/-- C4: the rendered control-widget options emit `autoPlay` and `loop` as
the literals `true`/`false` according to the stored booleans and
`transitionTime` as the stored integer: construction with `loop=True,
auto_play=True, transition_time=500` renders `autoPlay: true`,
`transitionTime: 500`, `loop: true`, and all-default construction renders
`autoPlay: false`, `loop: false`, `transitionTime: 200`. -/
theorem claim4_control_options (p : String) (t t' : TimestampedWmsTileLayers)
    (h : TimestampedWmsTileLayers.init (PyData.list []) (PyVal.int 500) (PyVal.bool true)
      (PyVal.bool true) "P1D" (PyVal.bool false) = Except.ok t)
    (h' : TimestampedWmsTileLayers.initDefault (PyData.list []) = Except.ok t') :
    okHas (scriptOf t p) "autoPlay: true" = true ∧
    okHas (scriptOf t p) "transitionTime: 500" = true ∧
    okHas (scriptOf t p) "loop: true" = true ∧
    okHas (scriptOf t' p) "autoPlay: false" = true ∧
    okHas (scriptOf t' p) "loop: false" = true ∧
    okHas (scriptOf t' p) "transitionTime: 200" = true := by
  have h2 : (Except.ok
      { transition_time := 500, loop := true, auto_play := true, period := "P1D",
        time_interval := PyVal.bool false, layers := StoredLayers.list [] } :
      Except PyErr TimestampedWmsTileLayers) = Except.ok t := h
  injection h2 with h2
  subst h2
  have h3 : (Except.ok
      { transition_time := 200, loop := false, auto_play := false, period := "P1D",
        time_interval := PyVal.bool false, layers := StoredLayers.list [] } :
      Except PyErr TimestampedWmsTileLayers) = Except.ok t' := h'
  injection h3 with h3
  subst h3
  refine ⟨?_, ?_, ?_, ?_, ?_, ?_⟩
  · rw [scriptOf_eq_join _ p [] rfl]
    show strHas _ _ = true
    exact head_has_autoPlay _ p _
  · rw [scriptOf_eq_join _ p [] rfl]
    show strHas _ _ = true
    exact head_has_transition _ p _
  · rw [scriptOf_eq_join _ p [] rfl]
    show strHas _ _ = true
    exact head_has_loop _ p _
  · rw [scriptOf_eq_join _ p [] rfl]
    show strHas _ _ = true
    exact head_has_autoPlay _ p _
  · rw [scriptOf_eq_join _ p [] rfl]
    show strHas _ _ = true
    exact head_has_loop _ p _
  · rw [scriptOf_eq_join _ p [] rfl]
    show strHas _ _ = true
    exact head_has_transition _ p _

theorem claim4_witness :
    TimestampedWmsTileLayers.init (PyData.list []) (PyVal.int 500) (PyVal.bool true)
        (PyVal.bool true) "P1D" (PyVal.bool false) =
      Except.ok
        { transition_time := 500, loop := true, auto_play := true, period := "P1D",
          time_interval := PyVal.bool false, layers := StoredLayers.list [] } ∧
    TimestampedWmsTileLayers.initDefault (PyData.list []) =
      Except.ok
        { transition_time := 200, loop := false, auto_play := false, period := "P1D",
          time_interval := PyVal.bool false, layers := StoredLayers.list [] } ∧
    okHas
      (scriptOf
        { transition_time := 500, loop := true, auto_play := true, period := "P1D",
          time_interval := PyVal.bool false, layers := StoredLayers.list [] } "m")
      "autoPlay: true" = true ∧
    okHas
      (scriptOf
        { transition_time := 200, loop := false, auto_play := false, period := "P1D",
          time_interval := PyVal.bool false, layers := StoredLayers.list [] } "m")
      "transitionTime: 200" = true := by
  have hc := claim4_control_options "m" _ _ rfl rfl
  exact ⟨rfl, rfl, hc.1, hc.2.2.2.2.2⟩

/-- Whether a header resource link is a script include. -/
def HeaderRes.isJs : HeaderRes → Bool
  | HeaderRes.js _ => true
  | HeaderRes.css _ => false

/-- Follows the spec's words: the six external resource links, keyed by
fixed logical names — four scripts (a jQuery build, a jQuery-UI build, an
ISO-8601 period-parsing library, the Leaflet time-dimension library, in
that order), then two stylesheets. -/
def specSixLinks : List (String × HeaderRes) :=
  [("jquery2.0.0",
    HeaderRes.js "https://cdnjs.cloudflare.com/ajax/libs/jquery/2.0.0/jquery.min.js"),
   ("jqueryui1.10.2",
    HeaderRes.js "https://cdnjs.cloudflare.com/ajax/libs/jqueryui/1.10.2/jquery-ui.min.js"),
   ("iso8601",
    HeaderRes.js "https://rawgit.com/nezasa/iso8601-js-period/master/iso8601.min.js"),
   ("leaflet.timedimension",
    HeaderRes.js "https://rawgit.com/socib/Leaflet.TimeDimension/master/dist/leaflet.timedimension.min.js"),
   ("highlight.js_css",
    HeaderRes.css "https://cdnjs.cloudflare.com/ajax/libs/highlight.js/8.4/styles/default.min.css"),
   ("leaflet.timedimension_css",
    HeaderRes.css "http://apps.socib.es/Leaflet.TimeDimension/dist/leaflet.timedimension.control.min.css")]

/-- C5: every successful render registers exactly the six external
resource links on the page header, keyed by fixed logical names — four
scripts (jQuery, jQuery-UI, the ISO-8601 period parser, the Leaflet
time-dimension library, in that order) then two stylesheets — and
rendering a second instance attached to the same page leaves the header
unchanged: each link is registered exactly once, deduplicated by key. -/
theorem claim5_six_header_links (t1 t2 : TimestampedWmsTileLayers) (i1 i2 p1 p2 : String)
    (reg : List (String × String)) (s1 s2 : String)
    (h1 : scriptOf t1 p1 = Except.ok s1) (h2 : scriptOf t2 p2 = Except.ok s2) :
    t1.render i1 p1 (Root.fig { header := [], scriptRegistry := reg }) =
      Except.ok { header := specSixLinks, scriptRegistry := addChildNamed reg i1 s1 } ∧
    t2.render i2 p2
        (Root.fig { header := specSixLinks, scriptRegistry := addChildNamed reg i1 s1 }) =
      Except.ok
        { header := specSixLinks,
          scriptRegistry := addChildNamed (addChildNamed reg i1 s1) i2 s2 } ∧
    (specSixLinks.map Prod.fst).Nodup ∧
    specSixLinks.map Prod.fst =
      ["jquery2.0.0", "jqueryui1.10.2", "iso8601", "leaflet.timedimension",
       "highlight.js_css", "leaflet.timedimension_css"] ∧
    specSixLinks.map (fun e => HeaderRes.isJs e.2) =
      [true, true, true, true, false, false] := by
  refine ⟨?_, ?_, by decide, by decide, by decide⟩
  · unfold TimestampedWmsTileLayers.render
    rw [h1]
    rfl
  · unfold TimestampedWmsTileLayers.render
    rw [h2]
    rfl

theorem claim5_witness :
    scriptOf
        { transition_time := 200, loop := false, auto_play := false, period := "P1D",
          time_interval := PyVal.bool false, layers := StoredLayers.list [] } "m" =
      Except.ok
        (specScriptHead
          { transition_time := 200, loop := false, auto_play := false, period := "P1D",
            time_interval := PyVal.bool false, layers := StoredLayers.list [] } "m" ++
          joinStr []) ∧
    TimestampedWmsTileLayers.render
        { transition_time := 200, loop := false, auto_play := false, period := "P1D",
          time_interval := PyVal.bool false, layers := StoredLayers.list [] }
        "i1" "m" (Root.fig { header := [], scriptRegistry := [] }) =
      Except.ok
        { header := specSixLinks,
          scriptRegistry := addChildNamed [] "i1"
            (specScriptHead
              { transition_time := 200, loop := false, auto_play := false, period := "P1D",
                time_interval := PyVal.bool false, layers := StoredLayers.list [] } "m" ++
              joinStr []) } ∧
    TimestampedWmsTileLayers.render
        { transition_time := 500, loop := true, auto_play := true, period := "P1D",
          time_interval := PyVal.bool false, layers := StoredLayers.list [] }
        "i2" "m"
        (Root.fig
          { header := specSixLinks,
            scriptRegistry := addChildNamed [] "i1"
              (specScriptHead
                { transition_time := 200, loop := false, auto_play := false, period := "P1D",
                  time_interval := PyVal.bool false, layers := StoredLayers.list [] } "m" ++
                joinStr []) }) =
      Except.ok
        { header := specSixLinks,
          scriptRegistry := addChildNamed
            (addChildNamed [] "i1"
              (specScriptHead
                { transition_time := 200, loop := false, auto_play := false, period := "P1D",
                  time_interval := PyVal.bool false, layers := StoredLayers.list [] } "m" ++
                joinStr []))
            "i2"
            (specScriptHead
              { transition_time := 500, loop := true, auto_play := true, period := "P1D",
                time_interval := PyVal.bool false, layers := StoredLayers.list [] } "m" ++
              joinStr []) } ∧
    (specSixLinks.map Prod.fst).Nodup := by
  have hc := claim5_six_header_links
    { transition_time := 200, loop := false, auto_play := false, period := "P1D",
      time_interval := PyVal.bool false, layers := StoredLayers.list [] }
    { transition_time := 500, loop := true, auto_play := true, period := "P1D",
      time_interval := PyVal.bool false, layers := StoredLayers.list [] }
    "i1" "i2" "m" "m" []
    (specScriptHead
      { transition_time := 200, loop := false, auto_play := false, period := "P1D",
        time_interval := PyVal.bool false, layers := StoredLayers.list [] } "m" ++
      joinStr [])
    (specScriptHead
      { transition_time := 500, loop := true, auto_play := true, period := "P1D",
        time_interval := PyVal.bool false, layers := StoredLayers.list [] } "m" ++
      joinStr [])
    rfl rfl
  exact ⟨rfl, hc.1, hc.2.1, hc.2.2.1⟩
